import Mathlib

/-!
Verification of the pagination adapter in `src/src/pages/PostsListPage.tsx`.

The file shallowly embeds the three pieces of the component that carry the
design content:

* the windowed-fetch datasource built by `buildDatasource` (its `getRows`
  handler, lines 68-89 of the source), modelled as a pure function from the
  request, the captured page size, the outcome of the HTTP fetch and the two
  continuations to the ordered trace of observable calls;
* the grid-ready handler `onGridReady` (lines 94-104), which installs the
  datasource built from the page size current at that moment;
* the page-size coordinator `onChangePageSize` (lines 106-118), which updates
  the React state and, when a grid API is attached, reconfigures the widget.

JavaScript numbers that hold integers are modelled as `Int`; `Math.floor` of
an integer quotient is `Int.fdiv`.  The `??` default operator on optional
fields is `Option.getD`.  The `try`/`catch` of `getRows` is made explicit:
each continuation is a function that may itself throw (`Except Unit Unit`),
and `getRows` returns the trace of calls it performed together with a flag
recording whether an exception escaped the handler.
-/

/-- A listed item, `type Post` (source lines 15-21). -/
structure Post where
  id : Int
  title : String
  author : String
  createdAt : String
  views : Int
deriving Repr, DecidableEq

/-- The page envelope returned by the listing endpoint, `type PageResponse<T>`
(source lines 23-29). -/
structure PageResponse (T : Type) where
  content : List T
  page : Int
  size : Int
  totalElements : Int
  totalPages : Int
deriving Repr, DecidableEq

/-- The row-window request handed to `getRows`; both fields are optional in
`IGetRowsParams` (the code guards each with `??`). -/
structure IGetRowsParams where
  startRow : Option Int
  endRow : Option Int
deriving Repr, DecidableEq

/-- The value produced by `await res.json()` on source line 82 when the body
is valid JSON.  The declaration `const data: PageResponse<Post> = await
res.json()` is a bare type ascription with no runtime validation, so the
parsed value need not be envelope-shaped.  The code reads exactly two
properties of it, `data.content` and `data.totalElements`, and forwards them
as-is; a parsed body is therefore modelled by these two projections, each
either the envelope-typed value (`some`) or any other JavaScript value —
such as the `undefined` of a missing property — (`none`). -/
structure ParsedBody where
  content : Option (List Post)
  totalElements : Option Int
deriving Repr, DecidableEq

/-- The projections the code reads from a body that really is the page
envelope. -/
def PageResponse.toBody (data : PageResponse Post) : ParsedBody :=
  { content := some data.content, totalElements := some data.totalElements }

/-- Outcome of the `fetch` on source line 77, as observed by `getRows`:
the fetch may reject (network error), or resolve with a response whose
`ok` flag reflects the HTTP status and whose body either is valid JSON
(`some data`, of any shape — see `ParsedBody`) or makes `res.json()` throw
(`none`). -/
inductive FetchOutcome where
  | networkError : FetchOutcome
  | response (ok : Bool) (body : Option ParsedBody) : FetchOutcome
deriving Repr, DecidableEq

/-- The continuation pair supplied with a row-window request.  Each
continuation is an arbitrary function that may throw when invoked
(`Except.error` models a thrown exception).  The success continuation
receives whatever two values the code forwards, envelope-typed or not. -/
structure Callbacks where
  success : Option (List Post) → Option Int → Except Unit Unit
  fail : Unit → Except Unit Unit

/-- An observable call performed by one `getRows` invocation: the outbound
HTTP fetch with its `(page, size)` query pair, a `successCallback(rows, total)`
invocation carrying the raw values the code forwards, or a `failCallback()`
invocation. -/
inductive CallEvent where
  | fetch (page : Int) (size : Int) : CallEvent
  | success (rows : Option (List Post)) (total : Option Int) : CallEvent
  | fail : CallEvent
deriving Repr, DecidableEq

/-- Whether the event is the outbound HTTP fetch. -/
def CallEvent.isFetch : CallEvent → Bool
  | .fetch _ _ => true
  | _ => false

/-- Whether the event is an invocation of one of the two continuations. -/
def CallEvent.isContinuation : CallEvent → Bool
  | .fetch _ _ => false
  | _ => true

/-- `startRow` resolution, source line 70: `params.startRow ?? 0`. -/
def resolvedStartRow (params : IGetRowsParams) : Int :=
  params.startRow.getD 0

/-- `endRow` resolution, source line 71:
`params.endRow ?? startRow + pageSize`. -/
def resolvedEndRow (pageSize : Int) (params : IGetRowsParams) : Int :=
  params.endRow.getD (resolvedStartRow params + pageSize)

/-- The page index computed on source line 75:
`Math.floor(startRow / size)` with `size` the captured page size. -/
def pageIndexOf (pageSize : Int) (params : IGetRowsParams) : Int :=
  Int.fdiv (resolvedStartRow params) pageSize

/-- The `(page, size)` query pair of the fetch issued on source lines 77-79. -/
def fetchCall (pageSize : Int) (params : IGetRowsParams) : Int × Int :=
  (pageIndexOf pageSize params, pageSize)

/-- The `getRows` handler of the datasource built by `buildDatasource`
(source lines 68-89), for the page size captured by its closure.  Returns
the ordered trace of observable calls together with `true` when an exception
escaped the handler.  The body mirrors the source:

* lines 70-71 resolve `startRow` and `endRow` (the latter is computed but
  never used afterwards);
* lines 74-75 fix `size` and compute the page index;
* lines 77-80 issue the fetch and throw on a non-`ok` status;
* line 82 awaits `res.json()`, which throws only when the body is not valid
  JSON; the type ascription checks nothing, so any parsed value flows on;
* line 85 invokes `successCallback(data.content, data.totalElements)`,
  forwarding the two projections whatever they hold;
* the `catch` on lines 86-88 invokes `failCallback()` whenever anything in
  the `try` block threw, including the success continuation itself. -/
def getRows (pageSize : Int) (params : IGetRowsParams) (net : FetchOutcome)
    (cbs : Callbacks) : List CallEvent × Bool :=
  let startRow := params.startRow.getD 0
  let _endRow := params.endRow.getD (startRow + pageSize)
  let size := pageSize
  let page := Int.fdiv startRow size
  let tryBlock : List CallEvent × Bool :=
    match net with
    | .networkError => ([.fetch page size], true)
    | .response ok body =>
      if !ok then
        ([.fetch page size], true)
      else
        match body with
        | none => ([.fetch page size], true)
        | some data =>
          match cbs.success data.content data.totalElements with
          | .ok _ =>
            ([.fetch page size, .success data.content data.totalElements], false)
          | .error _ =>
            ([.fetch page size, .success data.content data.totalElements], true)
  if tryBlock.2 then
    match cbs.fail () with
    | .ok _ => (tryBlock.1 ++ [.fail], false)
    | .error _ => (tryBlock.1 ++ [.fail], true)
  else
    tryBlock

/-- Whether the `try` block throws before the success callback is reached:
the fetch rejected, the HTTP status was not ok (line 80), or `res.json()`
rejected because the body was not valid JSON.  A valid-JSON body of the
wrong shape does not abort — line 82 performs no validation. -/
def FetchOutcome.aborts : FetchOutcome → Bool
  | .networkError => true
  | .response ok body => !ok || body.isNone

/-- The widget-side state touched by the component: the grid options it sets,
the pagination position, the keys of the cached row blocks, and the page size
captured by the closure of the currently installed datasource. -/
structure GridState where
  cacheBlockSize : Int
  paginationPageSize : Int
  currentPage : Int
  cachedBlocks : List Int
  datasourceSize : Int
deriving Repr, DecidableEq

/-- The component's own state: the `pageSize` React state (source line 36)
and the grid API captured in `gridApiRef` (source line 34), absent until the
grid signals ready. -/
structure ComponentState where
  pageSize : Int
  gridApi : Option GridState
deriving Repr, DecidableEq

/-- The component as first rendered: `useState<number>(10)` and an empty
`gridApiRef`. -/
def initState : ComponentState :=
  { pageSize := 10, gridApi := none }

/-- `onGridReady` (source lines 94-104): stores the API, sets
`cacheBlockSize` and `paginationPageSize` to the current page size, and
installs the datasource built by `buildDatasource()`, whose closure captures
that same page size.  The fresh grid starts on its first page with an empty
block cache. -/
def onGridReady (s : ComponentState) : ComponentState :=
  { s with
      gridApi := some
        { cacheBlockSize := s.pageSize
          paginationPageSize := s.pageSize
          currentPage := 0
          cachedBlocks := []
          datasourceSize := s.pageSize } }

/-- `onChangePageSize` (source lines 106-118): updates the `pageSize` state,
returns early when no grid API is attached, and otherwise sets the two grid
options, moves pagination to the first page and purges the block cache.  No
statement in the handler touches the installed datasource. -/
def onChangePageSize (s : ComponentState) (next : Int) : ComponentState :=
  let s1 : ComponentState := { s with pageSize := next }
  match s1.gridApi with
  | none => s1
  | some g =>
    { s1 with
        gridApi := some
          { g with
              cacheBlockSize := next
              paginationPageSize := next
              currentPage := 0
              cachedBlocks := [] } }

/-- The `(page, size)` pair a row-window request is fetched with when routed
through the component's installed datasource, or `none` when no grid (hence
no datasource) is attached. -/
def dispatchFetchCall (s : ComponentState) (params : IGetRowsParams) :
    Option (Int × Int) :=
  s.gridApi.map fun g => fetchCall g.datasourceSize params

/-- Sample row used to instantiate witnesses. -/
def samplePost : Post :=
  { id := 1, title := "hello", author := "alice", createdAt := "2024-01-01T00:00:00Z", views := 3 }

/-- Sample envelope used to instantiate witnesses. -/
def samplePage : PageResponse Post :=
  { content := [samplePost], page := 0, size := 10, totalElements := 1, totalPages := 1 }

/-- Continuation pair that never throws. -/
def tameCbs : Callbacks :=
  { success := fun _ _ => Except.ok (), fail := fun _ => Except.ok () }

/-- Continuation pair whose success continuation throws when invoked. -/
def throwingSuccessCbs : Callbacks :=
  { success := fun _ _ => Except.error (), fail := fun _ => Except.ok () }

/-- Whether an invoked continuation threw. -/
def threw : Except Unit Unit → Bool
  | .ok _ => false
  | .error _ => true

lemma getRows_of_aborts (pageSize : Int) (params : IGetRowsParams)
    (net : FetchOutcome) (cbs : Callbacks) (h : net.aborts = true) :
    getRows pageSize params net cbs =
      ([.fetch (pageIndexOf pageSize params) pageSize, .fail], threw (cbs.fail ())) := by
  cases net with
  | networkError =>
    cases hf : cbs.fail () <;>
      simp [getRows, threw, hf, pageIndexOf, resolvedStartRow]
  | response ok body =>
    cases ok with
    | false =>
      cases hf : cbs.fail () <;>
        simp [getRows, threw, hf, pageIndexOf, resolvedStartRow]
    | true =>
      cases body with
      | none =>
        cases hf : cbs.fail () <;>
          simp [getRows, threw, hf, pageIndexOf, resolvedStartRow]
      | some data => simp [FetchOutcome.aborts] at h

lemma getRows_of_parsed (pageSize : Int) (params : IGetRowsParams)
    (data : ParsedBody) (cbs : Callbacks)
    (hs : cbs.success data.content data.totalElements = Except.ok ()) :
    getRows pageSize params (.response true (some data)) cbs =
      ([.fetch (pageIndexOf pageSize params) pageSize,
        .success data.content data.totalElements], false) := by
  simp [getRows, hs, pageIndexOf, resolvedStartRow]

lemma getRows_of_parsed_throwing (pageSize : Int) (params : IGetRowsParams)
    (data : ParsedBody) (cbs : Callbacks)
    (hs : cbs.success data.content data.totalElements = Except.error ()) :
    getRows pageSize params (.response true (some data)) cbs =
      ([.fetch (pageIndexOf pageSize params) pageSize,
        .success data.content data.totalElements, .fail], threw (cbs.fail ())) := by
  cases hf : cbs.fail () <;>
    simp [getRows, threw, hs, hf, pageIndexOf, resolvedStartRow]

/-- C1: for a resolved `startRow ≥ 0` and a captured `pageSize > 0`, the page
index computed by `getRows` is the mathematical floor of
`startRow / pageSize`, and the remote listing client is invoked exactly once,
with exactly that `(pageIndex, pageSize)` pair. -/
theorem getRows_window_to_page (pageSize : Int) (params : IGetRowsParams)
    (net : FetchOutcome) (cbs : Callbacks)
    (hstart : 0 ≤ resolvedStartRow params) (hsize : 0 < pageSize) :
    pageIndexOf pageSize params = ⌊(resolvedStartRow params : ℚ) / (pageSize : ℚ)⌋ ∧
    (getRows pageSize params net cbs).1.filter CallEvent.isFetch =
      [CallEvent.fetch (pageIndexOf pageSize params) pageSize] := by
  constructor
  · have hto : ((pageSize.toNat : ℤ)) = pageSize := Int.toNat_of_nonneg hsize.le
    have hcast : ((pageSize.toNat : ℕ) : ℚ) = (pageSize : ℚ) := by exact_mod_cast hto
    rw [pageIndexOf, Int.fdiv_eq_ediv _ hsize.le, ← hcast,
      Rat.floor_intCast_div_natCast (resolvedStartRow params) pageSize.toNat, hto]
  · cases net with
    | networkError =>
      rw [getRows_of_aborts pageSize params .networkError cbs rfl]
      simp [CallEvent.isFetch]
    | response ok body =>
      cases ok with
      | false =>
        rw [getRows_of_aborts pageSize params (.response false body) cbs
          (by simp [FetchOutcome.aborts])]
        simp [CallEvent.isFetch]
      | true =>
        cases body with
        | none =>
          rw [getRows_of_aborts pageSize params (.response true none) cbs
            (by simp [FetchOutcome.aborts])]
          simp [CallEvent.isFetch]
        | some data =>
          cases hs : cbs.success data.content data.totalElements with
          | ok u =>
            rw [getRows_of_parsed pageSize params data cbs (by rw [hs])]
            simp [CallEvent.isFetch]
          | error e =>
            rw [getRows_of_parsed_throwing pageSize params data cbs (by rw [hs])]
            simp [CallEvent.isFetch]

/-- C1 witness: `pageSize = 10`, request `{startRow: 25, endRow: 35}` maps to
page 2 and the client is called with `(2, 10)`. -/
theorem getRows_window_to_page_witness :
    (0 ≤ resolvedStartRow ⟨some 25, some 35⟩) ∧ ((0 : Int) < 10) ∧
    (pageIndexOf 10 ⟨some 25, some 35⟩ =
        ⌊(resolvedStartRow ⟨some 25, some 35⟩ : ℚ) / ((10 : Int) : ℚ)⌋ ∧
      (getRows 10 ⟨some 25, some 35⟩ .networkError tameCbs).1.filter CallEvent.isFetch =
        [CallEvent.fetch (pageIndexOf 10 ⟨some 25, some 35⟩) 10]) :=
  ⟨by decide, by decide,
    getRows_window_to_page 10 ⟨some 25, some 35⟩ .networkError tameCbs (by decide) (by decide)⟩

/-- C3 (code bug): the claim requires every body that fails to parse as the
page envelope to be treated as a failed page fetch, with only `failCallback`
invoked.  But the declaration on source line 82 is a bare type ascription
with no runtime validation, so a 2xx response whose body is valid JSON yet
not envelope-shaped — e.g. `{}`, whose `content` and `totalElements`
properties are both `undefined` — does not throw: `getRows` invokes the
success continuation with the two undefined values, never invokes
`failCallback`, and returns normally. -/
theorem nonEnvelope_body_reaches_success :
    ((getRows 10 ⟨some 0, some 10⟩
        (.response true (some { content := none, totalElements := none }))
        tameCbs).1.filter CallEvent.isContinuation =
      [CallEvent.success none none]) ∧
    (getRows 10 ⟨some 0, some 10⟩
        (.response true (some { content := none, totalElements := none }))
        tameCbs).2 = false := by
  decide

/-- C4: when the fetch succeeds and the envelope decodes to `data` with
`data.content.length ≤ pageSize`, the success continuation — assuming it
returns normally — is the only continuation invoked, and it receives exactly
the envelope's `content` sequence and exactly its `totalElements`. -/
theorem getRows_success_path (pageSize : Int) (params : IGetRowsParams)
    (data : PageResponse Post) (cbs : Callbacks)
    (hL : (data.content.length : Int) ≤ pageSize)
    (hs : cbs.success (some data.content) (some data.totalElements) = Except.ok ()) :
    (getRows pageSize params (.response true (some data.toBody)) cbs).1.filter
        CallEvent.isContinuation =
      [CallEvent.success (some data.content) (some data.totalElements)] ∧
    (getRows pageSize params (.response true (some data.toBody)) cbs).2 = false := by
  rw [getRows_of_parsed pageSize params data.toBody cbs hs]
  simp [CallEvent.isContinuation, PageResponse.toBody]

/-- C4 witness: a decoded envelope with one row and `totalElements = 1` is
delivered verbatim to the success continuation. -/
theorem getRows_success_path_witness :
    ((samplePage.content.length : Int) ≤ 10) ∧
    (tameCbs.success (some samplePage.content) (some samplePage.totalElements) =
      Except.ok ()) ∧
    ((getRows 10 ⟨some 0, some 10⟩ (.response true (some samplePage.toBody))
        tameCbs).1.filter CallEvent.isContinuation =
      [CallEvent.success (some samplePage.content) (some samplePage.totalElements)] ∧
      (getRows 10 ⟨some 0, some 10⟩ (.response true (some samplePage.toBody))
        tameCbs).2 = false) :=
  ⟨by decide, rfl,
    getRows_success_path 10 ⟨some 0, some 10⟩ samplePage tameCbs (by decide) rfl⟩

/-- C5 counterexample: the claim also asserts exactly-one delivery "including
the case where the success continuation itself throws when invoked", but in
that case the code's `catch` block additionally invokes `failCallback`: on a
successful fetch with a throwing success continuation, the trace contains
both a success invocation and a failure invocation. -/
theorem getRows_both_continuations_cex :
    (getRows 10 ⟨some 0, some 10⟩ (.response true (some samplePage.toBody))
        throwingSuccessCbs).1.filter CallEvent.isContinuation =
      [CallEvent.success (some samplePage.content) (some samplePage.totalElements),
        CallEvent.fail] := by
  decide

/-- C5 amended: for every single `getRows` invocation whose fetch settles,
provided the success continuation returns normally whenever invoked, exactly
one of the two continuations is invoked — the success continuation (with rows
and total) or the failure continuation (with no payload) — never both and
never neither.  (When the success continuation throws, the `catch` block
invokes the failure continuation as well, so both run.) -/
theorem getRows_exactly_one_continuation (pageSize : Int)
    (params : IGetRowsParams) (net : FetchOutcome) (cbs : Callbacks)
    (hs : ∀ rows total, cbs.success rows total = Except.ok ()) :
    ((getRows pageSize params net cbs).1.filter CallEvent.isContinuation).length = 1 := by
  cases net with
  | networkError =>
    rw [getRows_of_aborts pageSize params .networkError cbs rfl]
    simp [CallEvent.isContinuation]
  | response ok body =>
    cases ok with
    | false =>
      rw [getRows_of_aborts pageSize params (.response false body) cbs
        (by simp [FetchOutcome.aborts])]
      simp [CallEvent.isContinuation]
    | true =>
      cases body with
      | none =>
        rw [getRows_of_aborts pageSize params (.response true none) cbs
          (by simp [FetchOutcome.aborts])]
        simp [CallEvent.isContinuation]
      | some data =>
        rw [getRows_of_parsed pageSize params data cbs (hs _ _)]
        simp [CallEvent.isContinuation]

/-- C5 witness: with a non-throwing continuation pair and a successful fetch,
exactly one continuation is invoked. -/
theorem getRows_exactly_one_continuation_witness :
    (∀ rows total, tameCbs.success rows total = Except.ok ()) ∧
    ((getRows 10 ⟨some 0, some 10⟩ (.response true (some samplePage.toBody))
        tameCbs).1.filter CallEvent.isContinuation).length = 1 :=
  ⟨fun _ _ => rfl,
    getRows_exactly_one_continuation 10 ⟨some 0, some 10⟩
      (.response true (some samplePage.toBody)) tameCbs (fun _ _ => rfl)⟩

/-- C8: in `getRows`, a missing `startRow` resolves to `0`; a missing
`endRow` resolves to the resolved `startRow` plus the captured page size; and
the subsequent computation — the `(page, size)` pair of the fetch — is built
from exactly that resolved `startRow` (floor-divided by the captured size)
and the captured size. -/
theorem getRows_default_resolution (pageSize : Int) (params : IGetRowsParams) :
    (params.startRow = none → resolvedStartRow params = 0) ∧
    (params.endRow = none →
      resolvedEndRow pageSize params = resolvedStartRow params + pageSize) ∧
    fetchCall pageSize params =
      (Int.fdiv (resolvedStartRow params) pageSize, pageSize) := by
  refine ⟨fun h => ?_, fun h => ?_, rfl⟩
  · simp [resolvedStartRow, h]
  · simp [resolvedEndRow, h]

/-- C8 witness: a request with both fields absent, against page size 10,
resolves to `startRow = 0`, `endRow = 10`, and fetches `(0, 10)`. -/
theorem getRows_default_resolution_witness :
    (resolvedStartRow ⟨none, none⟩ = 0) ∧
    (resolvedEndRow 10 ⟨none, none⟩ = resolvedStartRow ⟨none, none⟩ + 10) ∧
    fetchCall 10 ⟨none, none⟩ =
      (Int.fdiv (resolvedStartRow ⟨none, none⟩) 10, 10) :=
  ⟨(getRows_default_resolution 10 ⟨none, none⟩).1 rfl,
    (getRows_default_resolution 10 ⟨none, none⟩).2.1 rfl,
    (getRows_default_resolution 10 ⟨none, none⟩).2.2⟩

/-- C9: two row-window requests with the same `(startRow, endRow)` handled
with the same captured page size compute the same page index and issue the
same backend fetch (same page, same size). -/
theorem getRows_idempotent_page (pageSize : Int) (p1 p2 : IGetRowsParams)
    (hstart : p1.startRow = p2.startRow) (hend : p1.endRow = p2.endRow) :
    pageIndexOf pageSize p1 = pageIndexOf pageSize p2 ∧
    fetchCall pageSize p1 = fetchCall pageSize p2 := by
  have h : p1 = p2 := by
    cases p1; cases p2
    simp_all
  rw [h]
  exact ⟨rfl, rfl⟩

/-- C9 witness: repeating the request `{startRow: 25, endRow: 35}` at page
size 10 recomputes the same page index and the same fetch pair. -/
theorem getRows_idempotent_page_witness :
    pageIndexOf 10 ⟨some 25, some 35⟩ = pageIndexOf 10 ⟨some 25, some 35⟩ ∧
    fetchCall 10 ⟨some 25, some 35⟩ = fetchCall 10 ⟨some 25, some 35⟩ :=
  getRows_idempotent_page 10 ⟨some 25, some 35⟩ ⟨some 25, some 35⟩ rfl rfl

/-- C10: `getRows` is independent of `endRow`: two requests that agree on
`startRow` but differ arbitrarily in `endRow` compute the same page index,
issue the same fetch, and produce the same full trace of continuation
invocations (and the same escape flag) against any fetch outcome and any
continuation pair. -/
theorem getRows_endRow_independent (pageSize : Int) (p1 p2 : IGetRowsParams)
    (net : FetchOutcome) (cbs : Callbacks)
    (hstart : p1.startRow = p2.startRow) :
    pageIndexOf pageSize p1 = pageIndexOf pageSize p2 ∧
    fetchCall pageSize p1 = fetchCall pageSize p2 ∧
    getRows pageSize p1 net cbs = getRows pageSize p2 net cbs := by
  refine ⟨?_, ?_, ?_⟩
  · simp [pageIndexOf, resolvedStartRow, hstart]
  · simp [fetchCall, pageIndexOf, resolvedStartRow, hstart]
  · simp only [getRows, hstart]

/-- C10 witness: `{startRow: 25, endRow: 35}` and `{startRow: 25, endRow: 99}`
behave identically. -/
theorem getRows_endRow_independent_witness :
    pageIndexOf 10 ⟨some 25, some 35⟩ = pageIndexOf 10 ⟨some 25, some 99⟩ ∧
    fetchCall 10 ⟨some 25, some 35⟩ = fetchCall 10 ⟨some 25, some 99⟩ ∧
    getRows 10 ⟨some 25, some 35⟩ .networkError tameCbs =
      getRows 10 ⟨some 25, some 99⟩ .networkError tameCbs :=
  getRows_endRow_independent 10 ⟨some 25, some 35⟩ ⟨some 25, some 99⟩
    .networkError tameCbs rfl

/-- C7: with a grid attached, `onChangePageSize next` sets both the widget's
cache-block-size and pagination-page-size settings to `next`, resets the
pagination to the first page, and purges every cached row block (leaving the
installed datasource untouched); with no grid attached it updates only the
`pageSize` state — steps 2-4 are skipped and the handler still returns a
well-defined state. -/
theorem onChangePageSize_coordinator (s : ComponentState) (next : Int) :
    (onChangePageSize s next).pageSize = next ∧
    (s.gridApi = none →
      onChangePageSize s next = { pageSize := next, gridApi := none }) ∧
    (∀ g, s.gridApi = some g →
      (onChangePageSize s next).gridApi =
        some { g with
                cacheBlockSize := next
                paginationPageSize := next
                currentPage := 0
                cachedBlocks := [] }) := by
  refine ⟨?_, fun h => ?_, fun g h => ?_⟩
  · cases hg : s.gridApi <;> simp [onChangePageSize, hg]
  · simp [onChangePageSize, h]
  · simp [onChangePageSize, h]

/-- C7 witness: changing the page size to 50 on a ready grid (initial size
10) sets both grid settings to 50, moves to the first page and empties the
block cache; on the un-ready component it only updates the state. -/
theorem onChangePageSize_coordinator_witness :
    ((onGridReady initState).gridApi =
      some { cacheBlockSize := 10, paginationPageSize := 10, currentPage := 0,
             cachedBlocks := [], datasourceSize := 10 }) ∧
    ((onChangePageSize (onGridReady initState) 50).gridApi =
      some { cacheBlockSize := 50, paginationPageSize := 50, currentPage := 0,
             cachedBlocks := [], datasourceSize := 10 }) ∧
    (initState.gridApi = none) ∧
    (onChangePageSize initState 50 = { pageSize := 50, gridApi := none }) :=
  ⟨by decide,
    (onChangePageSize_coordinator (onGridReady initState) 50).2.2
      { cacheBlockSize := 10, paginationPageSize := 10, currentPage := 0,
        cachedBlocks := [], datasourceSize := 10 } (by decide),
    by decide, (onChangePageSize_coordinator initState 50).2.1 rfl⟩

/-- C2 (code bug): after the grid becomes ready at page size 10 and
`onChangePageSize 50` runs, a subsequent request `{startRow: 0, endRow: 50}`
is dispatched through the datasource installed at grid-ready time, whose
closure still captures page size 10 — `onChangePageSize` never installs a new
datasource — so the backend is fetched with `(page = 0, size = 10)`, not the
`(0, 50)` the claim requires, even though the component state now holds
`pageSize = 50`. -/
theorem stale_datasource_after_resize :
    dispatchFetchCall (onChangePageSize (onGridReady initState) 50)
        ⟨some 0, some 50⟩ = some (0, 10) ∧
    (onChangePageSize (onGridReady initState) 50).pageSize = 50 := by
  decide

/-- C6 (code bug): no new adapter is installed when the page size changes:
after `onChangePageSize 50` the widget's datasource still closes over the
page size captured at grid-ready time (10), while the configuration in
effect is 50, so a request `{startRow: 25, endRow: 75}` issued after the
change computes its page index with the stale size
(`floor(25/10) = 2` instead of `floor(25/50) = 0`). -/
theorem datasource_never_reinstalled :
    ((onChangePageSize (onGridReady initState) 50).gridApi.map
        GridState.datasourceSize = some 10) ∧
    (onChangePageSize (onGridReady initState) 50).pageSize = 50 ∧
    dispatchFetchCall (onChangePageSize (onGridReady initState) 50)
        ⟨some 25, some 75⟩ = some (2, 10) := by
  decide
